import Mathlib

/-!
Verification of the SNMP trap ingestion subsystem of
`circonus-unified-agent` (`plugins/inputs/snmp_trap/snmp_trap.go`),
as a shallow embedding in Lean 4.

Modelling conventions:
* Go strings are Lean `String`s; byte indices coincide with character
  indices for the ASCII data involved here, so `strings.Index` is
  modelled on the character list.
* Go maps (`tags`, `fields`, the OID cache) are association lists with
  an overwriting insert; `getTag`/`getField`/`findEntry` look a key up.
* The fallible external calls (`s.lookup`, `s.execCmd`) are passed in as
  explicit function parameters returning `Except`.
* The handler's single `acc.AddFields` call, its early `return`s after
  `Log.Errorf`, and the unchecked Go type assertion `v.Value.([]byte)`
  (which panics on a dynamic-type mismatch) become the three
  constructors of `HandleOutcome`.
-/

/-- `mibEntry`: result of resolving one dotted-decimal OID. -/
structure MibEntry where
  mibName : String
  oidText : String
deriving DecidableEq, Repr

/-- The dynamic (interface) type of a variable's value, as relevant to the
handler: `v.Value.(string)` succeeds exactly on `asString`,
`v.Value.([]byte)` succeeds exactly on `asBytes`. -/
inductive SnmpValue where
  | asString (s : String)
  | asBytes (b : List Nat)
  | asInt (n : Int)
  | asOther (rendering : String)
deriving DecidableEq, Repr

/-- The ASN.1 BER tag `v.Type` as classified by the handler's `switch`. -/
inductive AsnType where
  | objectIdentifier
  | octetString
  | otherScalar
deriving DecidableEq, Repr

/-- One entry of `packet.Variables`. -/
structure SnmpVariable where
  name : String
  typ : AsnType
  value : SnmpValue
deriving DecidableEq, Repr

/-- `gosnmp.SnmpVersion` restricted to the three values the plugin sets. -/
inductive SnmpVersion where
  | version1
  | version2c
  | version3
deriving DecidableEq, Repr

/-- `gosnmp.SnmpVersion.String()`. -/
def SnmpVersion.render : SnmpVersion → String
  | .version1 => "1"
  | .version2c => "2c"
  | .version3 => "3"

/-- The fields of `gosnmp.SnmpPacket` read by the handler. -/
structure SnmpPacket where
  version : SnmpVersion
  genericTrap : Int
  specificTrap : Int
  enterprise : String
  agentAddress : String
  timestamp : Nat
  vars : List SnmpVariable
deriving DecidableEq, Repr

/-- Go's `fmt.Sprintf("%v", v.Value)`, the default rendering used for
scalars in the handler's `default:` branch. -/
def SnmpValue.render : SnmpValue → String
  | .asString s => s
  | .asBytes b => toString b
  | .asInt n => toString n
  | .asOther r => r

/-- Decode a byte slice as a Go string (`string(bytes)`); modelled on code
points, adequate for the ASCII payloads at issue. -/
def bytesToString (b : List Nat) : String :=
  String.mk (b.map (fun n => Char.ofNat n))

/-- A Go `map[string]string` as an association list with unique keys. -/
abbrev Tags := List (String × String)

/-- A Go `map[string]interface{}` holding the numeric fields. -/
abbrev Fields := List (String × Nat)

/-- `tags[k] = v`: overwriting map assignment. -/
def setTag (tags : Tags) (k v : String) : Tags :=
  (k, v) :: List.filter (fun p => !(p.1 == k)) tags

/-- Map lookup on the tag set. -/
def getTag (tags : Tags) (k : String) : Option String :=
  (List.find? (fun p => p.1 == k) tags).map (fun p => p.2)

/-- `fields[k] = v`: overwriting map assignment. -/
def setField (fields : Fields) (k : String) (v : Nat) : Fields :=
  (k, v) :: List.filter (fun p => !(p.1 == k)) fields

/-- Map lookup on the field set. -/
def getField (fields : Fields) (k : String) : Option Nat :=
  (List.find? (fun p => p.1 == k) fields).map (fun p => p.2)

/-- The log lines the handler and listener can produce, each constructor
one `s.Log` call site; `errorParsingPacket` carries the full decoded
packet (`Errorf("parsing packet: %+v", packet)`). -/
inductive LogEntry where
  | errorResolvingV1Oid (err : String)
  | errorGettingValueOid
  | errorResolvingValueOid (err : String)
  | errorResolvingOid (err : String)
  | errorParsingPacket (packet : SnmpPacket)
deriving DecidableEq, Repr

/-- `setTrapOid` from the source: records a resolved trap OID as tags. -/
def setTrapOid (tags : Tags) (oid : String) (e : MibEntry) : Tags :=
  setTag (setTag (setTag tags "oid" oid) "name" e.oidText) "mib" e.mibName

/-- The RFC 2576 §3.1 v1→v2 trap-OID derivation inside `makeTrapHandler`:
the value of the local `trapOid` after the two-armed `if`; `""` is Go's
zero value, kept when neither arm fires. -/
def v1TrapOid (p : SnmpPacket) : String :=
  if 0 ≤ p.genericTrap ∧ p.genericTrap < 6 then
    ".1.3.6.1.6.3.1.1.5." ++ toString (p.genericTrap + 1)
  else if p.genericTrap = 6 then
    p.enterprise ++ ".0." ++ toString p.specificTrap
  else ""

/-- The resolver as seen by the handler: `s.lookup` at one call site. -/
def Lookup := String → Except String MibEntry

/-- The `if packet.Version == gosnmp.Version1 { ... }` block of
`makeTrapHandler`: may early-return with an error log (`Except.error`),
otherwise yields the updated tag and field maps. -/
def v1Prelude (lk : Lookup) (p : SnmpPacket) (tags : Tags) (fields : Fields) :
    Except LogEntry (Tags × Fields) :=
  if p.version = .version1 then
    let trapOid := v1TrapOid p
    let step1 : Except LogEntry Tags :=
      if trapOid ≠ "" then
        match lk trapOid with
        | .error err => .error (.errorResolvingV1Oid err)
        | .ok e => .ok (setTrapOid tags trapOid e)
      else .ok tags
    match step1 with
    | .error l => .error l
    | .ok tags1 =>
      let tags2 := if p.agentAddress ≠ "" then setTag tags1 "agent_address" p.agentAddress
                   else tags1
      .ok (tags2, setField fields "sysUpTimeInstance" p.timestamp)
  else .ok (tags, fields)

/-- Mutable state of the variable walk: the `metricName` local and the
tag map. -/
structure WalkState where
  metricName : String
  tags : Tags
deriving DecidableEq, Repr

/-- Outcome of processing one variable (one iteration of the `for` over
`packet.Variables`): continue with updated state, early-return with an
error log, or panic (failed unchecked type assertion). -/
inductive StepResult where
  | next (st : WalkState)
  | fail (l : LogEntry)
  | panics
deriving DecidableEq, Repr

/-- The well-known sysUptime scalar skipped by the walk. -/
def sysUptimeOid : String := ".1.3.6.1.2.1.1.3.0"

/-- The well-known snmpTrapOID node. -/
def snmpTrapOidNode : String := ".1.3.6.1.6.3.1.1.4.1.0"

/-- One iteration of the variable walk, translated branch-for-branch from
the `for _, v := range packet.Variables` loop body. -/
def handleVariable (lk : Lookup) (st : WalkState) (v : SnmpVariable) : StepResult :=
  if v.name = sysUptimeOid then .next st
  else match v.typ with
  | .objectIdentifier =>
    match v.value with
    | .asString val =>
      match lk val with
      | .error err => .fail (.errorResolvingValueOid err)
      | .ok e =>
        if v.name = snmpTrapOidNode ∧ st.metricName = "" then
          .next ⟨e.oidText, setTag (setTag st.tags "oid" val) "mib" e.mibName⟩
        else
          .next ⟨st.metricName,
                 setTag (setTag (setTag st.tags "oid" val) "name" e.oidText) "mib" e.mibName⟩
    | _ => .fail .errorGettingValueOid
  | .octetString =>
    match lk v.name with
    | .error err => .fail (.errorResolvingOid err)
    | .ok e =>
      match v.value with
      | .asBytes b => .next ⟨st.metricName, setTag st.tags e.oidText (bytesToString b)⟩
      | _ => .panics
  | .otherScalar =>
    match lk v.name with
    | .error err => .fail (.errorResolvingOid err)
    | .ok e => .next ⟨st.metricName, setTag st.tags e.oidText (SnmpValue.render v.value)⟩

/-- The full variable walk. -/
def runWalk (lk : Lookup) (st : WalkState) : List SnmpVariable → StepResult
  | [] => .next st
  | v :: vs =>
    match handleVariable lk st v with
    | .next st' => runWalk lk st' vs
    | r => r

/-- One emitted metric event (`acc.AddFields` arguments). -/
structure Metric where
  name : String
  fields : Fields
  tags : Tags
  time : Nat
deriving DecidableEq, Repr

/-- Outcome of one invocation of the trap handler on one packet. -/
inductive HandleOutcome where
  | emit (m : Metric)
  | dropLog (l : LogEntry)
  | panics
deriving DecidableEq, Repr

/-- The initial tag map of the handler: `version` and `source`. -/
def initTags (p : SnmpPacket) (srcIp : String) : Tags :=
  setTag (setTag ([] : Tags) "version" p.version.render) "source" srcIp

/-- The handler closure returned by `makeTrapHandler`, applied to one
decoded packet: `srcIp` is `addr.IP.String()` and `tm` the receipt time
`s.timeFunc()`. -/
def makeTrapHandler (lk : Lookup) (p : SnmpPacket) (srcIp : String) (tm : Nat) :
    HandleOutcome :=
  match v1Prelude lk p (initTags p srcIp) [] with
  | .error l => .dropLog l
  | .ok (tags1, fields1) =>
    match runWalk lk ⟨"", tags1⟩ p.vars with
    | .fail l => .dropLog l
    | .panics => .panics
    | .next st =>
      if st.metricName = "" then .dropLog (.errorParsingPacket p)
      else .emit ⟨"snmp_trap", setField fields1 st.metricName 1, st.tags, tm⟩

/-- Number of metric events an outcome emits. -/
def HandleOutcome.emitCount : HandleOutcome → Nat
  | .emit _ => 1
  | _ => 0

/-- State owned by the resolver: the mutex-guarded `s.cache` plus a count
of external-translation invocations (calls of `s.snmptranslate`, each of
which runs `s.execCmd` once). -/
structure CacheState where
  cache : List (String × MibEntry)
  translateCount : Nat
deriving DecidableEq, Repr

/-- `s.cache[oid]` lookup (map access, `e, ok := s.cache[oid]`). -/
def findEntry (c : List (String × MibEntry)) (oid : String) : Option MibEntry :=
  (List.find? (fun p => p.1 == oid) c).map (fun p => p.2)

/-- `(*SnmpTrap).lookup`: consult the cache; on a miss run the external
translation `tr` (= `s.snmptranslate`), store the entry only on success,
and return the result either way. -/
def lookup (tr : String → Except String MibEntry) (st : CacheState) (oid : String) :
    Except String MibEntry × CacheState :=
  match findEntry st.cache oid with
  | some e => (.ok e, st)
  | none =>
    match tr oid with
    | .ok e => (.ok e, ⟨(oid, e) :: st.cache, st.translateCount + 1⟩)
    | .error err => (.error err, ⟨st.cache, st.translateCount + 1⟩)

/-- `(*SnmpTrap).load`: direct cache insertion under the lock. -/
def load (st : CacheState) (oid : String) (e : MibEntry) : CacheState :=
  ⟨(oid, e) :: List.filter (fun p => !(p.1 == oid)) st.cache, st.translateCount⟩

/-- `(*SnmpTrap).clear`: drop all cache entries. -/
def clear (st : CacheState) : CacheState :=
  ⟨[], st.translateCount⟩

/-- Index of the first occurrence of `pat` in a character list
(`strings.Index`), `none` when absent. -/
def indexOfSub (pat : List Char) : List Char → Option Nat
  | [] => if pat = [] then some 0 else none
  | c :: cs =>
    if pat.isPrefixOf (c :: cs) then some 0
    else (indexOfSub pat (cs : List Char)).map (fun n => n + 1)

/-- The first line `bufio.Scanner` yields from the command output, `""`
when the output is empty (`Scan` returns false, `Text` gives `""`). -/
def firstLine (lines : List String) : String :=
  lines.headD ""

/-- The parsing tail of `(*SnmpTrap).snmptranslate`, applied to the
command output split into lines: split the first line on the first
occurrence of `"::"`, prefix becoming `mibName` and remainder `oidText`;
`"not found"` when the separator is absent. -/
def parseTranslateOutput (lines : List String) : Except String MibEntry :=
  let line := firstLine lines
  match indexOfSub "::".toList line.toList with
  | none => .error "not found"
  | some i =>
    .ok ⟨String.mk (line.toList.take i), String.mk (line.toList.drop (i + 2))⟩

/-- `(*SnmpTrap).snmptranslate`: run the external command
(`snmptranslate -Td -Ob -m all <oid>`, abstracted as `ex`, which returns
the stdout lines or the timeout/exec error) and parse its output. -/
def snmptranslate (ex : String → Except String (List String)) (oid : String) :
    Except String MibEntry :=
  match ex oid with
  | .error err => .error err
  | .ok lines => parseTranslateOutput lines

/-- The configuration fields of `SnmpTrap` that `Start` reads. -/
structure SnmpTrapConfig where
  serviceAddress : String
  version : String
  secLevel : String
  secName : String
  authProtocol : String
  authPassword : String
  privProtocol : String
  privPassword : String
deriving DecidableEq, Repr

/-- `gosnmp.SnmpV3MsgFlags` values the plugin selects. -/
inductive MsgFlags where
  | noAuthNoPriv
  | authNoPriv
  | authPriv
deriving DecidableEq, Repr

/-- `gosnmp.SnmpV3AuthProtocol` values the plugin selects. -/
inductive AuthProto where
  | noAuth
  | md5
  | sha
deriving DecidableEq, Repr

/-- `gosnmp.SnmpV3PrivProtocol` values the plugin selects. -/
inductive PrivProto where
  | noPriv
  | des
  | aes
  | aes192
  | aes192c
  | aes256
  | aes256c
deriving DecidableEq, Repr

/-- The `switch s.Version` at the top of `Start`; unrecognized strings
fall back to `Version2c`. -/
def parseVersion : String → SnmpVersion
  | "3" => .version3
  | "2c" => .version2c
  | "1" => .version1
  | _ => .version2c

/-- Go's `strings.ToLower`, modelled as a character-wise map (adequate
for the ASCII parameter strings compared here). -/
def toLowerStr (s : String) : String :=
  String.mk (s.toList.map Char.toLower)

/-- The `switch strings.ToLower(s.SecLevel)` in `Start`. -/
def parseSecLevel (s : String) : Except String MsgFlags :=
  match toLowerStr s with
  | "noauthnopriv" => .ok .noAuthNoPriv
  | "" => .ok .noAuthNoPriv
  | "authnopriv" => .ok .authNoPriv
  | "authpriv" => .ok .authPriv
  | _ => .error ("unknown security level " ++ s)

/-- The `switch strings.ToLower(s.AuthProtocol)` in `Start`. -/
def parseAuthProtocol (s : String) : Except String AuthProto :=
  match toLowerStr s with
  | "md5" => .ok .md5
  | "sha" => .ok .sha
  | "" => .ok .noAuth
  | _ => .error ("unknown authentication protocol " ++ s)

/-- The `switch strings.ToLower(s.PrivProtocol)` in `Start`. -/
def parsePrivProtocol (s : String) : Except String PrivProto :=
  match toLowerStr s with
  | "aes" => .ok .aes
  | "des" => .ok .des
  | "aes192" => .ok .aes192
  | "aes192c" => .ok .aes192c
  | "aes256" => .ok .aes256
  | "aes256c" => .ok .aes256c
  | "" => .ok .noPriv
  | _ => .error ("unknown privacy protocol " ++ s)

/-- The v3 security parameters assembled by `Start` when the version is
`Version3` (`gosnmp.UsmSecurityParameters` plus the message flags). -/
structure SecParams where
  msgFlags : MsgFlags
  userName : String
  authProtocol : AuthProto
  authPassphrase : String
  privProtocol : PrivProto
  privPassphrase : String
deriving DecidableEq, Repr

/-- What a successful `Start` has done right before spawning the
goroutine that calls `s.listener.Listen(addr)`: reaching this value is
exactly reaching the spawn. -/
structure StartOk where
  paramsVersion : SnmpVersion
  secParams : Option SecParams
  listenAddr : String
deriving DecidableEq, Repr

/-- `strings.SplitN(s, "://", 2)`: `some (prefix, rest)` at the first
occurrence of `"://"`; `none` when absent (Go then returns a one-element
slice and `Start` rejects the address). -/
def splitScheme (s : String) : Option (String × String) :=
  match indexOfSub "://".toList s.toList with
  | none => none
  | some i => some (String.mk (s.toList.take i), String.mk (s.toList.drop (i + 3)))

/-- `(*SnmpTrap).Start` up to (and deciding) the goroutine spawn: the
version switch, the v3 security-parameter validation, and the service
address check, in source order.  `Except.error` is a synchronous
configuration error returned before any socket work; `Except.ok`
captures the state handed to the listen goroutine.
`startV3Params` is the `if s.listener.Params.Version == gosnmp.Version3`
block validating the security parameters. -/
def startV3Params (cfg : SnmpTrapConfig) : Except String (Option SecParams) :=
  if parseVersion cfg.version = .version3 then
    match parseSecLevel cfg.secLevel with
    | .error e => .error e
    | .ok mf =>
      match parseAuthProtocol cfg.authProtocol with
      | .error e => .error e
      | .ok ap =>
        match parsePrivProtocol cfg.privProtocol with
        | .error e => .error e
        | .ok pp =>
          .ok (some ⟨mf, cfg.secName, ap, cfg.authPassword, pp, cfg.privPassword⟩)
  else .ok none

/-- `(*SnmpTrap).Start` proper: v3 validation, then the service-address
split and scheme check, in source order; `.ok` is reached exactly when
the code reaches `go func() { s.errCh <- s.listener.Listen(addr) }()`. -/
def start (cfg : SnmpTrapConfig) : Except String StartOk :=
  match startV3Params cfg with
  | .error e => .error e
  | .ok secParams =>
    match splitScheme cfg.serviceAddress with
    | none => .error ("invalid service address: " ++ cfg.serviceAddress)
    | some (protocol, addr) =>
      if protocol = "udp" then .ok ⟨parseVersion cfg.version, secParams, addr⟩
      else .error ("unknown protocol " ++ protocol ++ " in " ++ cfg.serviceAddress)

/-- Whether the service address has scheme `udp` (the only accepted one):
`true` exactly when `"://"` occurs and the part before it is `"udp"`. -/
def schemeIsUdp (s : String) : Bool :=
  match splitScheme s with
  | some (protocol, _) => protocol == "udp"
  | none => false

/-! ### Map helper lemmas -/

theorem find?_filter_other {α : Type} (t : List (String × α)) (k k' : String) (h : k ≠ k') :
    List.find? (fun p => p.1 == k') (List.filter (fun p => !(p.1 == k)) t) =
      List.find? (fun p => p.1 == k') t := by
  induction t with
  | nil => rfl
  | cons a t ih =>
    by_cases hk : a.1 = k
    · have hk' : ¬((fun p => p.1 == k') a = true) := by
        simp only [beq_iff_eq]
        exact fun hc => h (hk ▸ hc ▸ rfl)
      rw [List.filter_cons, if_neg (by simp [hk]), ih,
          @List.find?_cons_of_neg _ (fun p => p.1 == k') a t hk']
    · rw [List.filter_cons, if_pos (by simpa using hk)]
      by_cases h2 : a.1 = k'
      · rw [List.find?_cons_of_pos _ (by simpa using h2),
            List.find?_cons_of_pos _ (by simpa using h2)]
      · rw [List.find?_cons_of_neg _ (by simpa using h2),
            List.find?_cons_of_neg _ (by simpa using h2), ih]

theorem getTag_setTag_same (t : Tags) (k v : String) : getTag (setTag t k v) k = some v := by
  simp [getTag, setTag, List.find?_cons]

theorem getTag_setTag_other (t : Tags) (k v k' : String) (h : k ≠ k') :
    getTag (setTag t k v) k' = getTag t k' := by
  have hk : (k == k') = false := by simpa using h
  simp [getTag, setTag, List.find?_cons, hk, find?_filter_other t k k' h]

theorem getField_setField_same (t : Fields) (k : String) (v : Nat) :
    getField (setField t k v) k = some v := by
  simp [getField, setField, List.find?_cons]

/-! ### C2 -/

/-- C2: for every SNMPv1 packet, the derived canonical trap OID is
`".1.3.6.1.6.3.1.1.5." ++ toString (genericTrap+1)` when `genericTrap`
is in `[0,5]`, and `enterprise ++ ".0." ++ toString specificTrap` when
`genericTrap = 6`. -/
theorem c2_v1_trap_oid (p : SnmpPacket) :
    (0 ≤ p.genericTrap ∧ p.genericTrap ≤ 5 →
      v1TrapOid p = ".1.3.6.1.6.3.1.1.5." ++ toString (p.genericTrap + 1)) ∧
    (p.genericTrap = 6 →
      v1TrapOid p = p.enterprise ++ ".0." ++ toString p.specificTrap) := by
  constructor
  · intro h
    unfold v1TrapOid
    rw [if_pos ⟨h.1, by omega⟩]
  · intro h
    unfold v1TrapOid
    rw [if_neg (by omega), if_pos h]

/-- Witness for C2: genericTrap 0 gives the first well-known node, and
the spec's worked example genericTrap 6 / enterprise ".1.2.3" /
specificTrap 7 gives ".1.2.3.0.7". -/
theorem c2_v1_trap_oid_witness :
    v1TrapOid ⟨.version1, 0, 0, "", "", 0, []⟩ = ".1.3.6.1.6.3.1.1.5.1" ∧
    v1TrapOid ⟨.version1, 6, 7, ".1.2.3", "", 0, []⟩ = ".1.2.3.0.7" :=
  ⟨(c2_v1_trap_oid _).1 (by decide), (c2_v1_trap_oid _).2 (by decide)⟩

/-! ### C4 -/

/-- C4: once an OID has resolved successfully, its entry is in the cache;
any lookup of any OID preserves that entry; and a lookup of a cached OID
returns the identical stored pair with the state — in particular the
external-invocation counter — unchanged. -/
theorem c4_cache_hit (tr : String → Except String MibEntry) (st : CacheState) (oid : String)
    (e : MibEntry) (h : (lookup tr st oid).1 = .ok e) :
    findEntry (lookup tr st oid).2.cache oid = some e ∧
    (∀ st', findEntry st'.cache oid = some e → lookup tr st' oid = (.ok e, st')) ∧
    (∀ st', findEntry st'.cache oid = some e →
      (lookup tr st' oid).2.translateCount = st'.translateCount) ∧
    (∀ st' oid2, findEntry st'.cache oid = some e →
      findEntry (lookup tr st' oid2).2.cache oid = some e) := by
  have hret : ∀ st', findEntry st'.cache oid = some e → lookup tr st' oid = (.ok e, st') := by
    intro st' hf
    unfold lookup
    rw [hf]
  refine ⟨?_, hret, fun st' hf => by rw [hret st' hf], ?_⟩
  · cases hf : findEntry st.cache oid with
    | some e' =>
      have hl : lookup tr st oid = (.ok e', st) := by unfold lookup; rw [hf]
      rw [hl] at h ⊢
      simp only at h
      injection h with he
      rw [he] at hf
      exact hf
    | none =>
      cases htr : tr oid with
      | ok e' =>
        have hl : lookup tr st oid =
            (.ok e', ⟨(oid, e') :: st.cache, st.translateCount + 1⟩) := by
          unfold lookup; rw [hf, htr]
        rw [hl] at h ⊢
        simp only at h
        injection h with he
        rw [← he]
        simp [findEntry, List.find?_cons_of_pos]
      | error err =>
        have hl : lookup tr st oid =
            (.error err, ⟨st.cache, st.translateCount + 1⟩) := by
          unfold lookup; rw [hf, htr]
        rw [hl] at h
        simp only at h
        exact absurd h (by simp)
  · intro st' oid2 hf
    cases hf2 : findEntry st'.cache oid2 with
    | some e2 =>
      have hl : lookup tr st' oid2 = (.ok e2, st') := by unfold lookup; rw [hf2]
      rw [hl]
      exact hf
    | none =>
      cases htr : tr oid2 with
      | ok e2 =>
        have hl : lookup tr st' oid2 =
            (.ok e2, ⟨(oid2, e2) :: st'.cache, st'.translateCount + 1⟩) := by
          unfold lookup; rw [hf2, htr]
        rw [hl]
        have hne : ¬((fun p : String × MibEntry => p.1 == oid) (oid2, e2) = true) := by
          simp only [beq_iff_eq]
          intro hx
          rw [hx] at hf2
          rw [hf2] at hf
          exact Option.noConfusion hf
        show findEntry ((oid2, e2) :: st'.cache) oid = some e
        unfold findEntry
        rw [@List.find?_cons_of_neg _ (fun p => p.1 == oid) (oid2, e2) st'.cache hne]
        exact hf
      | error err =>
        have hl : lookup tr st' oid2 =
            (.error err, ⟨st'.cache, st'.translateCount + 1⟩) := by
          unfold lookup; rw [hf2, htr]
        rw [hl]
        exact hf

/-- Witness for C4: resolving "x" once against a translator that answers,
then looking it up again, hits the cache and leaves the state alone. -/
theorem c4_cache_hit_witness :
    lookup (fun _ => .ok ⟨"IF-MIB", "linkDown"⟩) ⟨[("x", ⟨"IF-MIB", "linkDown"⟩)], 1⟩ "x" =
      (.ok ⟨"IF-MIB", "linkDown"⟩, ⟨[("x", ⟨"IF-MIB", "linkDown"⟩)], 1⟩) :=
  (c4_cache_hit (fun _ => .ok ⟨"IF-MIB", "linkDown"⟩) ⟨[], 0⟩ "x" ⟨"IF-MIB", "linkDown"⟩
    rfl).2.1 ⟨[("x", ⟨"IF-MIB", "linkDown"⟩)], 1⟩ rfl

/-! ### C5 -/

/-- C5: a failed external translation returns the error, increments only
the invocation counter, and leaves the cache exactly as it was, so a
second lookup of the same OID invokes external translation again. -/
theorem c5_no_cache_on_failure (tr : String → Except String MibEntry) (st : CacheState)
    (oid err : String) (hmiss : findEntry st.cache oid = none) (htr : tr oid = .error err) :
    lookup tr st oid = (.error err, ⟨st.cache, st.translateCount + 1⟩) ∧
    (lookup tr (lookup tr st oid).2 oid).2.translateCount = st.translateCount + 2 := by
  have h1 : lookup tr st oid = (.error err, ⟨st.cache, st.translateCount + 1⟩) := by
    unfold lookup
    rw [hmiss, htr]
  refine ⟨h1, ?_⟩
  rw [h1]
  unfold lookup
  rw [show findEntry (⟨st.cache, st.translateCount + 1⟩ : CacheState).cache oid = none from hmiss,
      htr]

/-- Witness for C5: a translator that always fails leaves an empty cache
empty and is invoked again on the retry. -/
theorem c5_no_cache_on_failure_witness :
    lookup (fun _ => .error "timeout") ⟨[], 0⟩ "x" = (.error "timeout", ⟨[], 1⟩) ∧
    (lookup (fun _ => .error "timeout")
      (lookup (fun _ => .error "timeout") ⟨[], 0⟩ "x").2 "x").2.translateCount = 2 :=
  c5_no_cache_on_failure (fun _ => .error "timeout") ⟨[], 0⟩ "x" "timeout" rfl rfl

/-! ### C1 -/

/-- C1 counterexample: a well-formed SNMPv1 trap whose snmpTrapOID
variable resolves.  The emitted event carries TWO fields —
`sysUpTimeInstance` (set unconditionally for v1 packets) next to the
metric-name field — so the emitted event does not carry "the single
field" the claim states. -/
theorem c1_counterexample :
    makeTrapHandler (fun _ => .ok ⟨"SNMPv2-MIB", "linkUp"⟩)
      ⟨.version1, 2, 0, "", "", 123,
       [⟨".1.3.6.1.6.3.1.1.4.1.0", .objectIdentifier, .asString ".1.3.6.1.6.3.1.1.5.3"⟩]⟩
      "10.0.0.1" 99 =
      .emit ⟨"snmp_trap", [("linkUp", 1), ("sysUpTimeInstance", 123)],
             [("mib", "SNMPv2-MIB"), ("oid", ".1.3.6.1.6.3.1.1.5.3"), ("name", "linkUp"),
              ("source", "10.0.0.1"), ("version", "1")], 99⟩ ∧
    ([("linkUp", 1), ("sysUpTimeInstance", 123)] : Fields).length ≠ 1 := by
  constructor
  · decide
  · decide

/-- C1 (amended): the handler emits at most one metric event; when the
v1 section succeeds and the variable walk runs to completion, a still
empty metric name makes it log the full decoded packet at error level
and emit nothing, and otherwise it emits exactly one event named
"snmp_trap" whose fields are the accumulated field set — the field
`{metricName: 1}` together with, for SNMPv1 packets, `sysUpTimeInstance`
— with the accumulated tag set, timestamped at receipt time `tm`. -/
theorem c1_amended (lk : Lookup) (p : SnmpPacket) (srcIp : String) (tm : Nat) :
    (makeTrapHandler lk p srcIp tm).emitCount ≤ 1 ∧
    (∀ tf st,
      v1Prelude lk p (initTags p srcIp) [] = .ok tf →
      runWalk lk ⟨"", tf.1⟩ p.vars = .next st →
      (st.metricName = "" →
        makeTrapHandler lk p srcIp tm = .dropLog (.errorParsingPacket p)) ∧
      (st.metricName ≠ "" →
        makeTrapHandler lk p srcIp tm =
          .emit ⟨"snmp_trap", setField tf.2 st.metricName 1, st.tags, tm⟩ ∧
        getField (setField tf.2 st.metricName 1) st.metricName = some 1)) := by
  constructor
  · cases hout : makeTrapHandler lk p srcIp tm <;> simp [HandleOutcome.emitCount]
  · intro tf st hpre hwalk
    obtain ⟨t1, f1⟩ := tf
    simp only at hwalk
    have hmk : makeTrapHandler lk p srcIp tm =
        if st.metricName = "" then .dropLog (.errorParsingPacket p)
        else .emit ⟨"snmp_trap", setField f1 st.metricName 1, st.tags, tm⟩ := by
      unfold makeTrapHandler
      rw [hpre]
      simp only
      rw [hwalk]
    constructor
    · intro hm
      rw [hmk, if_pos hm]
    · intro hm
      exact ⟨by rw [hmk, if_neg hm], getField_setField_same _ _ _⟩

/-- Witness for C1 (amended): a v2c trap carrying one snmpTrapOID
variable resolving to "linkDown" emits one "snmp_trap" event with the
single field. -/
theorem c1_amended_witness :
    makeTrapHandler (fun _ => .ok ⟨"IF-MIB", "linkDown"⟩)
      ⟨.version2c, 0, 0, "", "", 0,
       [⟨".1.3.6.1.6.3.1.1.4.1.0", .objectIdentifier, .asString ".1.3.6.1.6.3.1.1.5.3"⟩]⟩
      "9.9.9.9" 7 =
      .emit ⟨"snmp_trap", [("linkDown", 1)],
             [("mib", "IF-MIB"), ("oid", ".1.3.6.1.6.3.1.1.5.3"),
              ("source", "9.9.9.9"), ("version", "2c")], 7⟩ :=
  (((c1_amended (fun _ => .ok ⟨"IF-MIB", "linkDown"⟩)
      ⟨.version2c, 0, 0, "", "", 0,
       [⟨".1.3.6.1.6.3.1.1.4.1.0", .objectIdentifier, .asString ".1.3.6.1.6.3.1.1.5.3"⟩]⟩
      "9.9.9.9" 7).2
    ([("source", "9.9.9.9"), ("version", "2c")], [])
    ⟨"linkDown", [("mib", "IF-MIB"), ("oid", ".1.3.6.1.6.3.1.1.5.3"),
                  ("source", "9.9.9.9"), ("version", "2c")]⟩
    rfl rfl).2 (by decide)).1

/-! ### C6 -/

/-- C6 counterexample: an SNMPv1 packet with genericTrap 7 (outside
[0,6]) and a nonempty agent address.  The handler still adds the
`agent_address` tag and the `sysUpTimeInstance` field to the emitted
data, so "adds none of the v1-derived tags (..., agent_address) or the
v1-derived field" is false. -/
theorem c6_counterexample :
    makeTrapHandler (fun _ => .ok ⟨"SNMPv2-MIB", "linkUp"⟩)
      ⟨.version1, 7, 0, "", "192.0.2.1", 55,
       [⟨".1.3.6.1.6.3.1.1.4.1.0", .objectIdentifier, .asString ".1.3.6.1.6.3.1.1.5.3"⟩]⟩
      "10.0.0.1" 99 =
      .emit ⟨"snmp_trap", [("linkUp", 1), ("sysUpTimeInstance", 55)],
             [("mib", "SNMPv2-MIB"), ("oid", ".1.3.6.1.6.3.1.1.5.3"),
              ("agent_address", "192.0.2.1"), ("source", "10.0.0.1"), ("version", "1")], 99⟩ ∧
    getTag [("mib", "SNMPv2-MIB"), ("oid", ".1.3.6.1.6.3.1.1.5.3"),
            ("agent_address", "192.0.2.1"), ("source", "10.0.0.1"), ("version", "1")]
        "agent_address" = some "192.0.2.1" ∧
    getField [("linkUp", 1), ("sysUpTimeInstance", 55)] "sysUpTimeInstance" = some 55 := by
  refine ⟨by decide, by decide, by decide⟩

/-- C6 (amended): with genericTrap outside [0,6] no canonical trap OID
is derived and the trap-OID-derived tags (oid, name, mib) are not added
by the v1 section — but, the packet being v1, the `agent_address` tag
(when the agent address is nonempty) and the `sysUpTimeInstance` field
are still added. -/
theorem c6_amended (lk : Lookup) (p : SnmpPacket) (tags : Tags) (fields : Fields)
    (hg : p.genericTrap < 0 ∨ 6 < p.genericTrap) :
    v1TrapOid p = "" ∧
    (p.version = .version1 →
      v1Prelude lk p tags fields =
        .ok ((if p.agentAddress ≠ "" then setTag tags "agent_address" p.agentAddress else tags),
             setField fields "sysUpTimeInstance" p.timestamp)) ∧
    (∀ t f, p.version = .version1 → v1Prelude lk p tags fields = .ok (t, f) →
      getTag t "oid" = getTag tags "oid" ∧ getTag t "name" = getTag tags "name" ∧
      getTag t "mib" = getTag tags "mib") := by
  have h0 : v1TrapOid p = "" := by
    unfold v1TrapOid
    rw [if_neg (by omega), if_neg (by omega)]
  have hpre : p.version = .version1 →
      v1Prelude lk p tags fields =
        .ok ((if p.agentAddress ≠ "" then setTag tags "agent_address" p.agentAddress else tags),
             setField fields "sysUpTimeInstance" p.timestamp) := by
    intro hv
    unfold v1Prelude
    rw [if_pos hv]
    simp only [h0, ne_eq, not_true_eq_false, if_false]
  refine ⟨h0, hpre, ?_⟩
  intro t f hv hpre'
  rw [hpre hv] at hpre'
  injection hpre' with hp
  injection hp with hp1 hp2
  rw [← hp1]
  by_cases ha : p.agentAddress = ""
  · rw [if_neg (by simpa using ha)]
    exact ⟨rfl, rfl, rfl⟩
  · rw [if_pos ha]
    exact ⟨getTag_setTag_other _ _ _ _ (by decide), getTag_setTag_other _ _ _ _ (by decide),
           getTag_setTag_other _ _ _ _ (by decide)⟩

/-- Witness for C6 (amended): genericTrap −1, agent address "1.2.3.4":
the v1 section adds only agent_address and sysUpTimeInstance. -/
theorem c6_amended_witness :
    v1Prelude (fun _ => .error "unused") ⟨.version1, -1, 0, "", "1.2.3.4", 55, []⟩
      [("source", "s")] [] =
      .ok ([("agent_address", "1.2.3.4"), ("source", "s")], [("sysUpTimeInstance", 55)]) :=
  (c6_amended (fun _ => .error "unused") ⟨.version1, -1, 0, "", "1.2.3.4", 55, []⟩
    [("source", "s")] [] (Or.inl (by decide))).2.1 rfl

/-! ### C3 -/

/-- Unfolding equation for `handleVariable` on a variable that is not the
skipped sysUptime scalar. -/
theorem handleVariable_eq (lk : Lookup) (st : WalkState) (vn : String) (vt : AsnType)
    (vv : SnmpValue) (hn : ¬vn = sysUptimeOid) :
    handleVariable lk st ⟨vn, vt, vv⟩ =
      (match vt with
       | .objectIdentifier =>
         match vv with
         | .asString val =>
           match lk val with
           | .error err => .fail (.errorResolvingValueOid err)
           | .ok e =>
             if vn = snmpTrapOidNode ∧ st.metricName = "" then
               .next ⟨e.oidText, setTag (setTag st.tags "oid" val) "mib" e.mibName⟩
             else
               .next ⟨st.metricName,
                      setTag (setTag (setTag st.tags "oid" val) "name" e.oidText) "mib"
                        e.mibName⟩
         | _ => .fail .errorGettingValueOid
       | .octetString =>
         match lk vn with
         | .error err => .fail (.errorResolvingOid err)
         | .ok e =>
           match vv with
           | .asBytes b => .next ⟨st.metricName, setTag st.tags e.oidText (bytesToString b)⟩
           | _ => .panics
       | .otherScalar =>
         match lk vn with
         | .error err => .fail (.errorResolvingOid err)
         | .ok e => .next ⟨st.metricName, setTag st.tags e.oidText (SnmpValue.render vv)⟩) := by
  unfold handleVariable
  rw [if_neg hn]

/-- C3: within the variable walk (so for variables other than the skipped
sysUptime scalar), an object-identifier-typed variable whose value
resolves to `e` establishes the metric name exactly when its own OID is
the snmpTrapOID node and no metric name has been chosen yet — that
branch sets tags `oid` and `mib` and leaves the `name` tag untouched;
every other object-identifier-typed variable instead sets tags `oid`,
`name`, and `mib` and leaves the metric name alone.  Conversely, a step
can only change the metric name through that branch. -/
theorem c3_metric_name (lk : Lookup) (st : WalkState) (v : SnmpVariable) :
    (∀ val e, v.name ≠ sysUptimeOid → v.typ = .objectIdentifier →
      v.value = .asString val → lk val = .ok e →
      ((v.name = snmpTrapOidNode ∧ st.metricName = "" →
         handleVariable lk st v =
           .next ⟨e.oidText, setTag (setTag st.tags "oid" val) "mib" e.mibName⟩ ∧
         getTag (setTag (setTag st.tags "oid" val) "mib" e.mibName) "name" =
           getTag st.tags "name") ∧
       (¬(v.name = snmpTrapOidNode ∧ st.metricName = "") →
         handleVariable lk st v =
           .next ⟨st.metricName,
                  setTag (setTag (setTag st.tags "oid" val) "name" e.oidText) "mib"
                    e.mibName⟩))) ∧
    (∀ st', handleVariable lk st v = .next st' → st'.metricName ≠ st.metricName →
      v.typ = .objectIdentifier ∧ v.name = snmpTrapOidNode ∧ st.metricName = "" ∧
      ∃ val e, v.value = .asString val ∧ lk val = .ok e ∧ st'.metricName = e.oidText) := by
  constructor
  · intro val e hn ht hv hlk
    have hbase : handleVariable lk st v =
        if v.name = snmpTrapOidNode ∧ st.metricName = "" then
          .next ⟨e.oidText, setTag (setTag st.tags "oid" val) "mib" e.mibName⟩
        else
          .next ⟨st.metricName,
                 setTag (setTag (setTag st.tags "oid" val) "name" e.oidText) "mib"
                   e.mibName⟩ := by
      unfold handleVariable
      rw [if_neg hn, ht, hv]
      simp only
      rw [hlk]
    constructor
    · intro hc
      refine ⟨by rw [hbase, if_pos hc], ?_⟩
      rw [getTag_setTag_other _ _ _ _ (by decide), getTag_setTag_other _ _ _ _ (by decide)]
    · intro hc
      rw [hbase, if_neg hc]
  · intro st' hstep hne
    obtain ⟨vn, vt, vv⟩ := v
    simp only at hne ⊢
    by_cases hn : vn = sysUptimeOid
    · rw [show handleVariable lk st ⟨vn, vt, vv⟩ = .next st from by
        unfold handleVariable; rw [if_pos hn]] at hstep
      injection hstep with h
      exact absurd (congrArg WalkState.metricName h.symm) hne
    rw [handleVariable_eq lk st vn vt vv hn] at hstep
    cases vt with
    | objectIdentifier =>
      cases vv with
      | asString val =>
        simp only at hstep
        cases hlk : lk val with
        | error err => rw [hlk] at hstep; exact absurd hstep (by simp)
        | ok e =>
          rw [hlk] at hstep
          simp only at hstep
          by_cases hc : vn = snmpTrapOidNode ∧ st.metricName = ""
          · rw [if_pos hc] at hstep
            injection hstep with h
            exact ⟨rfl, hc.1, hc.2, val, e, rfl, hlk,
                   (congrArg WalkState.metricName h).symm⟩
          · rw [if_neg hc] at hstep
            injection hstep with h
            exact absurd (congrArg WalkState.metricName h.symm) hne
      | asBytes b => simp only at hstep; exact absurd hstep (by simp)
      | asInt n => simp only at hstep; exact absurd hstep (by simp)
      | asOther r => simp only at hstep; exact absurd hstep (by simp)
    | octetString =>
      simp only at hstep
      cases hlk : lk vn with
      | error err => rw [hlk] at hstep; exact absurd hstep (by simp)
      | ok e =>
        rw [hlk] at hstep
        simp only at hstep
        cases vv with
        | asBytes b =>
          simp only at hstep
          injection hstep with h
          exact absurd (congrArg WalkState.metricName h.symm) hne
        | asString s => simp only at hstep; exact absurd hstep (by simp)
        | asInt n => simp only at hstep; exact absurd hstep (by simp)
        | asOther r => simp only at hstep; exact absurd hstep (by simp)
    | otherScalar =>
      simp only at hstep
      cases hlk : lk vn with
      | error err => rw [hlk] at hstep; exact absurd hstep (by simp)
      | ok e =>
        rw [hlk] at hstep
        simp only at hstep
        injection hstep with h
        exact absurd (congrArg WalkState.metricName h.symm) hne

/-- Witness for C3: a snmpTrapOID-named variable sets the metric name
and tags oid/mib only; another OID-typed variable sets oid/name/mib. -/
theorem c3_metric_name_witness :
    handleVariable (fun _ => .ok ⟨"IF-MIB", "linkDown"⟩) ⟨"", [("source", "s")]⟩
      ⟨".1.3.6.1.6.3.1.1.4.1.0", .objectIdentifier, .asString ".1.2.3"⟩ =
      .next ⟨"linkDown", [("mib", "IF-MIB"), ("oid", ".1.2.3"), ("source", "s")]⟩ ∧
    handleVariable (fun _ => .ok ⟨"IF-MIB", "linkDown"⟩) ⟨"x", [("source", "s")]⟩
      ⟨".1.9.9", .objectIdentifier, .asString ".1.2.3"⟩ =
      .next ⟨"x", [("mib", "IF-MIB"), ("name", "linkDown"), ("oid", ".1.2.3"),
                   ("source", "s")]⟩ :=
  ⟨(((c3_metric_name (fun _ => .ok ⟨"IF-MIB", "linkDown"⟩) ⟨"", [("source", "s")]⟩
      ⟨".1.3.6.1.6.3.1.1.4.1.0", .objectIdentifier, .asString ".1.2.3"⟩).1 ".1.2.3"
      ⟨"IF-MIB", "linkDown"⟩ (by decide) rfl rfl rfl).1 (by exact ⟨rfl, rfl⟩)).1,
   ((c3_metric_name (fun _ => .ok ⟨"IF-MIB", "linkDown"⟩) ⟨"x", [("source", "s")]⟩
      ⟨".1.9.9", .objectIdentifier, .asString ".1.2.3"⟩).1 ".1.2.3"
      ⟨"IF-MIB", "linkDown"⟩ (by decide) rfl rfl rfl).2 (by decide)⟩

/-! ### C8 -/

/-- C8: if the service address's scheme is absent or anything other than
"udp", `Start` returns an error synchronously; in the model an
`Except.ok` is what reaches the `go s.listener.Listen(addr)` spawn, so
an error result means the listen task was never spawned and no socket
touched. -/
theorem c8_bad_scheme (cfg : SnmpTrapConfig) (h : schemeIsUdp cfg.serviceAddress = false) :
    ∃ e, start cfg = .error e := by
  unfold start
  cases hsec : startV3Params cfg with
  | error e => exact ⟨e, rfl⟩
  | ok sp =>
    cases hsp : splitScheme cfg.serviceAddress with
    | none => exact ⟨_, rfl⟩
    | some pr =>
      obtain ⟨protocol, addr⟩ := pr
      have hne : ¬protocol = "udp" := by
        unfold schemeIsUdp at h
        rw [hsp] at h
        simpa using h
      simp only
      rw [if_neg hne]
      exact ⟨_, rfl⟩

/-- Witness for C8: a "tcp" scheme is rejected. -/
theorem c8_bad_scheme_witness :
    ∃ e, start ⟨"tcp://:162", "2c", "", "", "", "", "", ""⟩ = .error e :=
  c8_bad_scheme ⟨"tcp://:162", "2c", "", "", "", "", "", ""⟩ rfl

/-! ### C10 -/

/-- C10: an octet-string-typed variable (not the skipped sysUptime one)
whose own OID resolves but whose dynamic value is not a byte slice makes
the handler panic (the Go `v.Value.([]byte)` assertion is unchecked),
whereas an object-identifier-typed variable whose value is not a string
is caught by the checked assertion and merely logged and dropped. -/
theorem c10_octet_string_assert (lk : Lookup) (st : WalkState) (v : SnmpVariable)
    (e : MibEntry) (hn : v.name ≠ sysUptimeOid) (hlk : lk v.name = .ok e) :
    (v.typ = .octetString → (∀ b, v.value ≠ .asBytes b) →
      handleVariable lk st v = .panics) ∧
    (v.typ = .objectIdentifier → (∀ s, v.value ≠ .asString s) →
      handleVariable lk st v = .fail .errorGettingValueOid) := by
  have hocts : ∀ hv2 : SnmpValue, v.value = hv2 → (∀ b, hv2 ≠ .asBytes b) →
      v.typ = .octetString → handleVariable lk st v = .panics := by
    intro hv2 hveq hb ht
    unfold handleVariable
    rw [if_neg hn, ht]
    simp only
    rw [hlk]
    simp only
    rw [hveq]
    cases hv2 with
    | asBytes b => exact absurd rfl (hb b)
    | asString s => rfl
    | asInt n => rfl
    | asOther r => rfl
  have hoid : ∀ hv2 : SnmpValue, v.value = hv2 → (∀ s, hv2 ≠ .asString s) →
      v.typ = .objectIdentifier → handleVariable lk st v = .fail .errorGettingValueOid := by
    intro hv2 hveq hs ht
    unfold handleVariable
    rw [if_neg hn, ht]
    simp only
    rw [hveq]
    cases hv2 with
    | asString s => exact absurd rfl (hs s)
    | asBytes b => rfl
    | asInt n => rfl
    | asOther r => rfl
  exact ⟨fun ht hb => hocts v.value rfl (fun b => hb b) ht,
         fun ht hs => hoid v.value rfl (fun s => hs s) ht⟩

/-- Witness for C10: a non-byte-slice octet-string variable panics; a
non-string object-identifier variable is dropped with a log. -/
theorem c10_octet_string_assert_witness :
    handleVariable (fun _ => .ok ⟨"M", "n"⟩) ⟨"", []⟩
      ⟨".1.2.3", .octetString, .asString "oops"⟩ = .panics ∧
    handleVariable (fun _ => .ok ⟨"M", "n"⟩) ⟨"", []⟩
      ⟨".1.2.3", .objectIdentifier, .asBytes [1]⟩ = .fail .errorGettingValueOid :=
  ⟨(c10_octet_string_assert (fun _ => .ok ⟨"M", "n"⟩) ⟨"", []⟩
      ⟨".1.2.3", .octetString, .asString "oops"⟩ ⟨"M", "n"⟩ (by decide) rfl).1 rfl
      (fun b h => nomatch h),
   (c10_octet_string_assert (fun _ => .ok ⟨"M", "n"⟩) ⟨"", []⟩
      ⟨".1.2.3", .objectIdentifier, .asBytes [1]⟩ ⟨"M", "n"⟩ (by decide) rfl).2 rfl
      (fun s h => nomatch h)⟩

/-! ### C7 -/

/-- `indexOfSub` finds the first occurrence: the pattern matches at the
returned index and at no earlier one. -/
theorem indexOfSub_first (pat : List Char) (l : List Char) (i : Nat)
    (h : indexOfSub pat l = some i) :
    pat.isPrefixOf (List.drop i l) = true ∧
    ∀ j, j < i → pat.isPrefixOf (List.drop j l) = false := by
  induction l generalizing i with
  | nil =>
    unfold indexOfSub at h
    split at h
    · injection h with h0
      subst h0
      refine ⟨by simp [‹pat = []›, List.isPrefixOf], ?_⟩
      intro j hj
      omega
    · exact absurd h (by simp)
  | cons c cs ih =>
    unfold indexOfSub at h
    split at h
    · injection h with h0
      subst h0
      refine ⟨by simpa using ‹pat.isPrefixOf (c :: cs) = true›, ?_⟩
      intro j hj
      omega
    · rename_i hnp
      rcases Option.map_eq_some'.mp h with ⟨i', hi', hplus⟩
      subst hplus
      obtain ⟨h1, h2⟩ := ih i' hi'
      refine ⟨by simpa using h1, ?_⟩
      intro j hj
      cases j with
      | zero =>
        simpa using Bool.not_eq_true _ ▸ hnp
      | succ j' =>
        simpa using h2 j' (by omega)

/-- C7: the translation-output parser looks only at the first line; when
`"::"` occurs in that line it splits at the first occurrence, the prefix
becoming `mibName` and the remainder `oidText`; when the separator is
absent anywhere in the first line the result is the not-found error and
no entry. -/
theorem c7_translate_parse (l₁ : String) (rest rest' : List String) :
    parseTranslateOutput (l₁ :: rest) = parseTranslateOutput (l₁ :: rest') ∧
    (∀ i, indexOfSub "::".toList l₁.toList = some i →
      parseTranslateOutput (l₁ :: rest) =
        .ok ⟨String.mk (List.take i l₁.toList), String.mk (List.drop (i + 2) l₁.toList)⟩ ∧
      "::".toList.isPrefixOf (List.drop i l₁.toList) = true ∧
      ∀ j, j < i → "::".toList.isPrefixOf (List.drop j l₁.toList) = false) ∧
    (indexOfSub "::".toList l₁.toList = none →
      parseTranslateOutput (l₁ :: rest) = .error "not found") ∧
    (∀ ex oid err, ex oid = .error err → snmptranslate ex oid = .error err) := by
  refine ⟨rfl, ?_, ?_, ?_⟩
  · intro i hi
    obtain ⟨h1, h2⟩ := indexOfSub_first _ _ _ hi
    refine ⟨?_, h1, h2⟩
    unfold parseTranslateOutput firstLine
    simp only [List.headD_cons]
    rw [hi]
  · intro hn
    unfold parseTranslateOutput firstLine
    simp only [List.headD_cons]
    rw [hn]
  · intro ex oid err he
    unfold snmptranslate
    rw [he]

/-- Witness for C7: "IF-MIB::linkDown" splits at the first "::"; a line
with no separator is a not-found error; the second line is ignored. -/
theorem c7_translate_parse_witness :
    parseTranslateOutput ["IF-MIB::linkDown", "junk"] = .ok ⟨"IF-MIB", "linkDown"⟩ ∧
    parseTranslateOutput ["nosep"] = .error "not found" :=
  ⟨((c7_translate_parse "IF-MIB::linkDown" ["junk"] []).2.1 6 rfl).1,
   (c7_translate_parse "nosep" [] []).2.2.1 rfl⟩

/-! ### C9 -/

/-- An unrecognized (lower-cased) security level is rejected. -/
theorem parseSecLevel_error (s : String)
    (h : toLowerStr s ∉ (["noauthnopriv", "", "authnopriv", "authpriv"] : List String)) :
    ∃ e, parseSecLevel s = .error e := by
  unfold parseSecLevel
  split
  · exact absurd (by simp [*]) h
  · exact absurd (by simp [*]) h
  · exact absurd (by simp [*]) h
  · exact absurd (by simp [*]) h
  · exact ⟨_, rfl⟩

/-- An unrecognized (lower-cased) authentication protocol is rejected. -/
theorem parseAuthProtocol_error (s : String)
    (h : toLowerStr s ∉ (["md5", "sha", ""] : List String)) :
    ∃ e, parseAuthProtocol s = .error e := by
  unfold parseAuthProtocol
  split
  · exact absurd (by simp [*]) h
  · exact absurd (by simp [*]) h
  · exact absurd (by simp [*]) h
  · exact ⟨_, rfl⟩

/-- An unrecognized (lower-cased) privacy protocol is rejected. -/
theorem parsePrivProtocol_error (s : String)
    (h : toLowerStr s ∉
      (["aes", "des", "aes192", "aes192c", "aes256", "aes256c", ""] : List String)) :
    ∃ e, parsePrivProtocol s = .error e := by
  unfold parsePrivProtocol
  split
  · exact absurd (by simp [*]) h
  · exact absurd (by simp [*]) h
  · exact absurd (by simp [*]) h
  · exact absurd (by simp [*]) h
  · exact absurd (by simp [*]) h
  · exact absurd (by simp [*]) h
  · exact absurd (by simp [*]) h
  · exact ⟨_, rfl⟩

/-- C9: with version "3", an unrecognized string (case-insensitively) for
any of sec_level, auth_protocol, or priv_protocol makes `Start` return a
configuration error rather than fall back to a default, while the empty
string selects noAuthNoPriv, no authentication, and no privacy. -/
theorem c9_v3_validation (cfg : SnmpTrapConfig) (hv : cfg.version = "3") :
    (toLowerStr cfg.secLevel ∉ (["noauthnopriv", "", "authnopriv", "authpriv"] : List String) →
      ∃ e, start cfg = .error e) ∧
    (toLowerStr cfg.authProtocol ∉ (["md5", "sha", ""] : List String) →
      ∃ e, start cfg = .error e) ∧
    (toLowerStr cfg.privProtocol ∉
        (["aes", "des", "aes192", "aes192c", "aes256", "aes256c", ""] : List String) →
      ∃ e, start cfg = .error e) ∧
    parseSecLevel "" = .ok .noAuthNoPriv ∧
    parseAuthProtocol "" = .ok .noAuth ∧
    parsePrivProtocol "" = .ok .noPriv := by
  have hv3 : parseVersion cfg.version = .version3 := by rw [hv]; decide
  have hstart : ∀ e, startV3Params cfg = .error e → start cfg = .error e := by
    intro e he
    unfold start
    rw [he]
  refine ⟨?_, ?_, ?_, rfl, rfl, rfl⟩
  · intro h
    obtain ⟨e, he⟩ := parseSecLevel_error _ h
    refine ⟨e, hstart e ?_⟩
    unfold startV3Params
    rw [if_pos hv3, he]
  · intro h
    obtain ⟨e, he⟩ := parseAuthProtocol_error _ h
    cases hsl : parseSecLevel cfg.secLevel with
    | error e' =>
      exact ⟨e', hstart e' (by unfold startV3Params; rw [if_pos hv3, hsl])⟩
    | ok mf =>
      refine ⟨e, hstart e ?_⟩
      unfold startV3Params
      rw [if_pos hv3, hsl]
      simp only
      rw [he]
  · intro h
    obtain ⟨e, he⟩ := parsePrivProtocol_error _ h
    cases hsl : parseSecLevel cfg.secLevel with
    | error e' =>
      exact ⟨e', hstart e' (by unfold startV3Params; rw [if_pos hv3, hsl])⟩
    | ok mf =>
      cases hap : parseAuthProtocol cfg.authProtocol with
      | error e' =>
        refine ⟨e', hstart e' ?_⟩
        unfold startV3Params
        rw [if_pos hv3, hsl]
        simp only
        rw [hap]
      | ok ap =>
        refine ⟨e, hstart e ?_⟩
        unfold startV3Params
        rw [if_pos hv3, hsl]
        simp only
        rw [hap]
        simp only
        rw [he]

/-- Witness for C9: three configurations, each with one bogus v3
parameter, are all rejected at start; the empty strings map to the
documented defaults. -/
theorem c9_v3_validation_witness :
    (∃ e, start ⟨"udp://:162", "3", "bogus", "", "", "", "", ""⟩ = .error e) ∧
    (∃ e, start ⟨"udp://:162", "3", "", "", "bogus", "", "", ""⟩ = .error e) ∧
    (∃ e, start ⟨"udp://:162", "3", "", "", "", "", "bogus", ""⟩ = .error e) ∧
    parseSecLevel "" = .ok .noAuthNoPriv ∧
    parseAuthProtocol "" = .ok .noAuth ∧
    parsePrivProtocol "" = .ok .noPriv :=
  ⟨(c9_v3_validation ⟨"udp://:162", "3", "bogus", "", "", "", "", ""⟩ rfl).1 (by decide),
   (c9_v3_validation ⟨"udp://:162", "3", "", "", "bogus", "", "", ""⟩ rfl).2.1 (by decide),
   (c9_v3_validation ⟨"udp://:162", "3", "", "", "", "", "bogus", ""⟩ rfl).2.2.1 (by decide),
   (c9_v3_validation ⟨"udp://:162", "3", "", "", "", "", "", ""⟩ rfl).2.2.2.1,
   (c9_v3_validation ⟨"udp://:162", "3", "", "", "", "", "", ""⟩ rfl).2.2.2.2.1,
   (c9_v3_validation ⟨"udp://:162", "3", "", "", "", "", "", ""⟩ rfl).2.2.2.2.2⟩
